import Mathlib

/-!
# Shipping-App workflow: shallow embedding and verification

This file embeds the shipment-creation workflow of the Shipping-App
repository (React/TypeScript) in Lean and proves/refutes the spec claims
about it.  The embedding mirrors, definition for definition:

* `src/services/mockApiService.ts` — `validateAddress` (outcome-driven),
  the eHub parcel payload of `getRates`;
* `src/server.ts` — the parcel payload and response handling of
  `POST /api/shipments`;
* `src/components/AddressForm.tsx` — `handleManualValidate` and its
  correction-diff computation;
* `src/pages/CreateShipment.tsx` — the orchestrator state and the
  transitions `handleValidateAndNext`, the package-field `setPkg`
  handlers, `handleFetchRates`, `minDays`, the `isBestValue`/`isFastest`
  flags, and `handlePaymentSuccess`;
* `src/App.tsx` — `handleStripeReturn`, the redirect-resumption path.

JavaScript numbers are modelled as `JsNum` (a rational or NaN) so that
the `||` truthiness fallbacks and `Math.max` of the payload builders can
be stated faithfully; money amounts are rationals.  Strings use `""` for
absent optional fields, matching JS falsiness of the empty string.
External calls are modelled by passing their outcome as an explicit
argument to the handler that awaits them.
-/

namespace ShipApp

/-- A JavaScript number: NaN or a rational value. -/
inductive JsNum where
  | nan : JsNum
  | num : Rat → JsNum
deriving DecidableEq, Repr

/-- JS `x || d` for a number `x` and numeric default `d`:
`0` and `NaN` are falsy. -/
def JsNum.orDefault : JsNum → Rat → Rat
  | .nan, d => d
  | .num q, d => if q = 0 then d else q

/-- Multiplication by a numeric constant; NaN propagates. -/
def JsNum.mulConst : JsNum → Rat → JsNum
  | .nan, _ => .nan
  | .num q, c => .num (q * c)

/-- `Math.max x c` for a numeric constant `c`; NaN propagates. -/
def JsNum.jmax : JsNum → Rat → JsNum
  | .nan, _ => .nan
  | .num q, c => .num (max q c)

/-- Whitespace as recognised by JS `String.prototype.trim` (restricted
to the ASCII whitespace the app can encounter). -/
def isJsSpace (c : Char) : Bool := c = ' ' ∨ c = '\t' ∨ c = '\n' ∨ c = '\r'

/-- Drop leading whitespace characters. -/
def dropSpaces : List Char → List Char
  | [] => []
  | c :: cs => if isJsSpace c then dropSpaces cs else c :: cs

/-- JS `s.trim()`: strip whitespace from both ends. -/
def jsTrim (s : String) : String :=
  ⟨(dropSpaces ((dropSpaces s.data).reverse)).reverse⟩

/-- JS `s.toLowerCase()` (ASCII case mapping). -/
def jsToLower (s : String) : String := ⟨s.data.map Char.toLower⟩

/-- JS `s.toUpperCase()` (ASCII case mapping). -/
def jsToUpper (s : String) : String := ⟨s.data.map Char.toUpper⟩

/-- `types.ts` `Address`.  Optional fields are `""` when absent, which is
exactly their JS falsiness. -/
structure Address where
  name : String
  company : String := ""
  street1 : String
  street2 : String := ""
  city : String
  state : String
  zip : String
  country : String := "US"
  phone : String := ""
  email : String := ""
deriving DecidableEq, Repr

/-- `types.ts` `Rate`: one carrier service offer. -/
structure Rate where
  id : String
  carrier : String
  serviceName : String
  totalAmount : Rat
  currency : String
  deliveryDays : Int
  estimatedDeliveryDate : String
deriving DecidableEq, Repr

/-- Dimension unit of `PackageDetails.unit` (`'in' | 'cm'`). -/
inductive DimUnit where
  | inch : DimUnit
  | cm : DimUnit
deriving DecidableEq, Repr

/-- Weight unit of `PackageDetails.weightUnit`; the package form offers
`lb`, `oz` and `kg`. -/
inductive WeightUnit where
  | lb : WeightUnit
  | oz : WeightUnit
  | kg : WeightUnit
deriving DecidableEq, Repr

/-- `types.ts` `PackageDetails`.  The numeric fields are `JsNum` because
the server receives them from a JSON body where they may be non-numeric;
the client form always stores plain numbers (`parseFloat(v) || 0`). -/
structure PackageDetails where
  length : JsNum
  width : JsNum
  height : JsNum
  weight : JsNum
  unit : DimUnit
  weightUnit : WeightUnit
deriving DecidableEq, Repr

/-- Shipment status enumeration of `types.ts`. -/
inductive ShipmentStatus where
  | created : ShipmentStatus
  | shipped : ShipmentStatus
  | delivered : ShipmentStatus
  | cancelled : ShipmentStatus
deriving DecidableEq, Repr

/-- The package record persisted by `POST /api/shipments`: the request's
`pkg` with the eHub shipment id attached (`packageWithCarrierId`). -/
structure StoredPackage where
  pkg : PackageDetails
  carrierId : String
deriving DecidableEq, Repr

/-- `types.ts` `Shipment`, as materialised by `POST /api/shipments`. -/
structure Shipment where
  id : String
  createdDate : String
  fromAddress : Address
  toAddress : Address
  packageDetails : StoredPackage
  selectedRate : Rate
  trackingNumber : String
  labelUrl : String
  status : ShipmentStatus
deriving DecidableEq, Repr

/-! ## Address Validator adapter (`mockApiService.validateAddress`) -/

/-- `REQUEST_TIMEOUT_MS` of `mockApiService.ts`: the abort timer for
validation and rate requests. -/
def requestTimeoutMs : Nat := 15000

/-- The address fields the duck-typed response probing of
`validateAddress` can resolve (each models a priority chain such as
`apiAddr.postal_code || apiAddr.zip || ...`; `none` means every probed
key was falsy). -/
structure DuckAddress where
  street1 : Option String := none
  street2 : Option String := none
  city : Option String := none
  state : Option String := none
  zip : Option String := none
  country : Option String := none
deriving DecidableEq, Repr

/-- The `correctedAddress` object `validateAddress` builds on a success
response: each field falls back to the submitted address, `state` and
`country` are upper-cased and trimmed, `zip` is trimmed, `country`
defaults to `"US"`. -/
def correctedFromDuck (address : Address) (d : DuckAddress) : Address :=
  { address with
    street1 := d.street1.getD address.street1
    street2 := d.street2.getD address.street2
    city := d.city.getD address.city
    state := jsTrim (jsToUpper (d.state.getD address.state))
    zip := jsTrim (d.zip.getD address.zip)
    country :=
      jsTrim (jsToUpper (d.country.getD
        (if address.country = "" then "US" else address.country))) }

/-- Outcome of the `fetch('/api/validate-address')` call awaited by
`validateAddress`: a parsed response (`response.ok`, the `data.errors`
array when present, the `data.messages`/`data.error` fallback chain, and
the duck-typed address object), an `AbortError` fired by the 15 s timer,
or any other network exception. -/
inductive ValidateOutcome where
  | response (ok : Bool) (errors : Option (List String))
      (fallbackMsgs : Option (List String)) (duck : DuckAddress)
  | abortError
  | networkError
deriving DecidableEq, Repr

/-- Result shape of the validator adapter
(`{ isValid, messages, correctedAddress? }`). -/
structure ValidationResult where
  isValid : Bool
  messages : List String
  correctedAddress : Option Address := none
deriving DecidableEq, Repr

/-- `mockApiService.validateAddress`, as a function of the submitted
address and the outcome of the HTTP call.  Mirrors the source: success
iff `response.ok` and `data.errors` is not a non-empty array; on success
a corrected address is always assembled (the probe chain ends in `data`
itself, an object); on failure the message list falls back through
`data.errors || data.messages || ... || [default]`; `AbortError` and
other exceptions land in the catch clause. -/
def validateAddressRun (address : Address) : ValidateOutcome → ValidationResult
  | .response ok errors fallbackMsgs duck =>
    let hasErrors : Bool := match errors with
      | some es => decide (es ≠ [])
      | none => false
    if ok = true ∧ hasErrors = false then
      { isValid := true, messages := []
        correctedAddress := some (correctedFromDuck address duck) }
    else
      { isValid := false
        messages :=
          errors.getD
            (fallbackMsgs.getD ["This address could not be verified by the carrier."])
        correctedAddress := none }
  | .abortError =>
    { isValid := false
      messages := ["Address verification timed out. Please try again."]
      correctedAddress := none }
  | .networkError =>
    { isValid := false
      messages := ["Could not connect to verification service."]
      correctedAddress := none }

/-! ## eHub parcel payloads (`getRates` and `POST /api/shipments`) -/

/-- The `parcels[0]` object sent to eHub. -/
structure EhubParcel where
  length : Rat
  width : Rat
  height : Rat
  weight : JsNum
deriving DecidableEq, Repr

/-- Parcel built by `mockApiService.getRates`:
`length: Number(pkg.length) || 1`, ..., and
`weight: Math.max(Number(pkg.weight) * 16.0, 1)`. -/
def ratesParcel (pkg : PackageDetails) : EhubParcel :=
  { length := pkg.length.orDefault 1
    width := pkg.width.orDefault 1
    height := pkg.height.orDefault 1
    weight := (pkg.weight.mulConst 16).jmax 1 }

/-- Parcel built by the `POST /api/shipments` handler in `server.ts`
(same field formulas as `ratesParcel`; the handler additionally tags
`package_type: "parcel"`). -/
def shipmentsParcel (pkg : PackageDetails) : EhubParcel :=
  { length := pkg.length.orDefault 1
    width := pkg.width.orDefault 1
    height := pkg.height.orDefault 1
    weight := (pkg.weight.mulConst 16).jmax 1 }

/-! ## `POST /api/shipments` (`server.ts`) -/

/-- Body of a `POST /api/shipments` request as sent by
`mockApiService.createShipment`: the client forwards its arguments
unchanged (`payload = { userId, from, to, rate, pkg }`). -/
structure ShipRequest where
  userId : String
  fromAddr : Address
  toAddr : Address
  rate : Rate
  pkg : PackageDetails
deriving DecidableEq, Repr

/-- Outcome of the eHub `shipments/ship` call made by the server:
a non-ok HTTP response with its error message, an unparsable body, or a
parsed shipment object (tracking number, label URL and carrier shipment
id resolved through the handler's fallback chains; `none` = absent). -/
inductive EhubShipResult where
  | httpError (status : Nat) (msg : String)
  | invalidJson
  | purchased (trackingNumber : Option String) (labelUrl : Option String)
      (carrierId : Option String)
deriving DecidableEq, Repr

/-- Outcome of the Supabase `insert(...).select().single()`: the stored
row's id and `created_at` (the other columns echo the inserted values),
or a database error. -/
inductive DbResult where
  | stored (rowId : String) (createdAt : String)
  | failed (msg : String)
deriving DecidableEq, Repr

/-- The `POST /api/shipments` handler of `server.ts`, as a function of
the request and the outcomes of its two external calls (`nowIso` stands
for the timestamps taken on the temp-id path).  Mirrors the source:
missing-field check, carrier error passthrough, JSON-parse guard,
missing-tracking-number guard, and the two response shapes — a DB save
failure still returns the purchased label with a `temp_` id, otherwise
the stored row is echoed back. -/
def serverCreateShipment (req : ShipRequest) (eh : EhubShipResult)
    (db : DbResult) (nowIso : String) : Except String Shipment :=
  if req.userId = "" then
    .error "Missing required shipment data"
  else
    match eh with
    | .invalidJson => .error "Invalid JSON response from carrier"
    | .httpError _ msg => .error msg
    | .purchased trackingNumber labelUrl carrierId =>
      match trackingNumber with
      | none => .error "Label purchased, but no tracking number returned."
      | some tracking =>
        let packageWithCarrierId : StoredPackage :=
          { pkg := req.pkg, carrierId := carrierId.getD "" }
        match db with
        | .failed _ =>
          .ok { id := "temp_" ++ nowIso
                createdDate := nowIso
                fromAddress := req.fromAddr
                toAddress := req.toAddr
                packageDetails := packageWithCarrierId
                selectedRate := req.rate
                trackingNumber := tracking
                labelUrl := labelUrl.getD ""
                status := .created }
        | .stored rowId createdAt =>
          .ok { id := rowId
                createdDate := createdAt
                fromAddress := req.fromAddr
                toAddress := req.toAddr
                packageDetails := packageWithCarrierId
                selectedRate := req.rate
                trackingNumber := tracking
                labelUrl := labelUrl.getD ""
                status := .created }

/-! ## Address correction diff (`AddressForm.handleManualValidate`) -/

/-- The fields the correction diff of `handleManualValidate` inspects
(`['street1', 'street2', 'city', 'state', 'zip', 'country']`). -/
inductive AddrField where
  | street1 : AddrField
  | street2 : AddrField
  | city : AddrField
  | state : AddrField
  | zip : AddrField
  | country : AddrField
deriving DecidableEq, Repr

/-- Field projection `address[field]`. -/
def Address.fieldVal (a : Address) : AddrField → String
  | .street1 => a.street1
  | .street2 => a.street2
  | .city => a.city
  | .state => a.state
  | .zip => a.zip
  | .country => a.country

/-- The order in which the diff loop visits the fields. -/
def correctionFields : List AddrField :=
  [.street1, .street2, .city, .state, .zip, .country]

/-- The display label of each field
(`'street1' ? 'Street' : 'street2' ? 'Line 2' : 'zip' ? 'ZIP' :`
capitalised field name). -/
def fieldLabel : AddrField → String
  | .street1 => "Street"
  | .street2 => "Line 2"
  | .city => "City"
  | .state => "State"
  | .zip => "ZIP"
  | .country => "Country"

/-- One iteration of the diff loop: the raw values are trimmed, compared
case-insensitively, and an entry is pushed when they differ and at least
one raw value is truthy. -/
def correctionEntry (orig corr : Address) (f : AddrField) : Option String :=
  let originalValue := jsTrim (orig.fieldVal f)
  let correctedValue := jsTrim (corr.fieldVal f)
  if jsToLower originalValue ≠ jsToLower correctedValue ∧
      (orig.fieldVal f ≠ "" ∨ corr.fieldVal f ≠ "") then
    some (fieldLabel f ++ " updated to: " ++ corr.fieldVal f)
  else
    none

/-- `foundCorrections` accumulated by the diff loop of
`handleManualValidate`. -/
def foundCorrections (orig corr : Address) : List String :=
  correctionFields.filterMap (correctionEntry orig corr)

/-- Manual-validation status of `AddressForm`. -/
inductive ManualStatus where
  | idle : ManualStatus
  | loading : ManualStatus
  | success : ManualStatus
  | error : ManualStatus
deriving DecidableEq, Repr

/-- The `AddressForm` state written by `handleManualValidate`:
status, carrier messages, surfaced correction notices, and the working
address (`onChange` target in the parent). -/
structure ManualValidateState where
  status : ManualStatus
  messages : List String
  corrections : List String
  address : Address
deriving DecidableEq, Repr

/-- `AddressForm.handleManualValidate`, given the validator's result:
on success with a corrected address, the diff is computed and the
working address is replaced by the corrected version; on rejection the
messages are attached and the address is untouched. -/
def handleManualValidate (address : Address) (res : ValidationResult) :
    ManualValidateState :=
  if res.isValid then
    match res.correctedAddress with
    | some c =>
      { status := .success, messages := []
        corrections := foundCorrections address c
        address := c }
    | none =>
      { status := .success, messages := [], corrections := [], address := address }
  else
    { status := .error, messages := res.messages, corrections := [], address := address }

/-! ## Workflow orchestrator (`CreateShipment.tsx`) -/

/-- The `CreateShipment` component state the modelled transitions read
and write: wizard step (1 = Address, 2 = Details, 3 = Payment), the two
address drafts, the package draft, the fetched rates, the selection, the
Stripe client secret, the modal flag, and the per-address errors. -/
structure WorkflowState where
  step : Nat
  fromAddress : Address
  toAddress : Address
  pkg : PackageDetails
  rates : List Rate
  selectedRate : Option Rate
  clientSecret : Option String
  isPaymentModalOpen : Bool
  fromErrors : List String
  toErrors : List String
deriving DecidableEq, Repr

/-- `handleValidateAndNext`: both error lists are cleared, two
validation calls run concurrently, and the step advances only when both
results are valid; otherwise messages are attached for each invalid
side. -/
def handleValidateAndNext (s : WorkflowState)
    (fromRes toRes : ValidationResult) : WorkflowState :=
  let s1 := { s with fromErrors := [], toErrors := [] }
  if fromRes.isValid ∧ toRes.isValid then
    { s1 with step := 2 }
  else
    { s1 with
      fromErrors := if fromRes.isValid then s1.fromErrors else fromRes.messages
      toErrors := if toRes.isValid then s1.toErrors else toRes.messages }

/-- A user edit of one package field.  The numeric inputs go through
`parseFloat(e.target.value) || 0`, so `v.orDefault 0` is stored. -/
inductive PkgEdit where
  | setLength (v : JsNum)
  | setWidth (v : JsNum)
  | setHeight (v : JsNum)
  | setWeight (v : JsNum)
  | setUnit (u : DimUnit)
  | setWeightUnit (u : WeightUnit)
deriving DecidableEq, Repr

/-- The `onChange` handlers of the package form: each runs exactly
`setPkg(p => ({...p, field: value}))` and nothing else. -/
def applyPkgEdit (s : WorkflowState) : PkgEdit → WorkflowState
  | .setLength v => { s with pkg := { s.pkg with length := .num (v.orDefault 0) } }
  | .setWidth v => { s with pkg := { s.pkg with width := .num (v.orDefault 0) } }
  | .setHeight v => { s with pkg := { s.pkg with height := .num (v.orDefault 0) } }
  | .setWeight v => { s with pkg := { s.pkg with weight := .num (v.orDefault 0) } }
  | .setUnit u => { s with pkg := { s.pkg with unit := u } }
  | .setWeightUnit u => { s with pkg := { s.pkg with weightUnit := u } }

/-- Price order used by
`.sort((a, b) => a.totalAmount - b.totalAmount)`. -/
def rateLe (a b : Rate) : Prop := a.totalAmount ≤ b.totalAmount

instance : DecidableRel rateLe := fun a b =>
  inferInstanceAs (Decidable (a.totalAmount ≤ b.totalAmount))

instance : IsTotal Rate rateLe := ⟨fun a b => le_total a.totalAmount b.totalAmount⟩

instance : IsTrans Rate rateLe := ⟨fun _ _ _ hab hbc => le_trans hab hbc⟩

/-- `sortedRates`: the fetched list sorted ascending by total price. -/
def sortRates (l : List Rate) : List Rate := List.insertionSort rateLe l

/-- `handleFetchRates`, given the standardised addresses (the
best-effort normaliser already fell back to the originals on failure)
and the list returned by `getRates`.  Mirrors the source: the addresses
are updated first, the fetched list is sorted, an empty result throws a
retryable error (caught and alerted, leaving rates, selection and step
untouched), and a non-empty result replaces the list whole and clears
the selection.  The step never changes here. -/
def handleFetchRates (s : WorkflowState) (stdFrom stdTo : Address)
    (fetched : List Rate) : WorkflowState × Option String :=
  let s1 := { s with fromAddress := stdFrom, toAddress := stdTo }
  let sortedRates := sortRates fetched
  if sortedRates = [] then
    (s1, some "No rates found for this shipment. Please check your package weight and dimensions.")
  else
    ({ s1 with rates := sortedRates, selectedRate := none }, none)

/-- `minDays`:
`rates.length > 0 ? Math.min(...rates.map(r => r.deliveryDays)) : 999`. -/
def minDays (rates : List Rate) : Int :=
  match (rates.map Rate.deliveryDays).min? with
  | some m => m
  | none => 999

/-- `isFastest = rate.deliveryDays === minDays`. -/
def isFastest (rate : Rate) (rates : List Rate) : Bool :=
  rate.deliveryDays = minDays rates

/-- `isBestValue = rates[0].id === rate.id` (evaluated while rendering
the non-empty list). -/
def isBestValue (rate : Rate) (rates : List Rate) : Bool :=
  match rates with
  | [] => false
  | r0 :: _ => r0.id = rate.id

/-- An observable side effect of the payment-completion handlers.
`issueLabel` stands for the `createShipment` call, i.e. the
`POST /api/shipments` label purchase. -/
inductive Effect where
  | issueLabel (userId : String) (fromAddr toAddr : Address) (rate : Rate)
      (pkg : PackageDetails)
deriving DecidableEq, Repr

/-- `handlePaymentSuccess`: guarded only by `if (!selectedRate) return`;
it closes the modal, drops the client secret, and unconditionally calls
`createShipment` with the current drafts and selection. -/
def handlePaymentSuccess (userId : String) (s : WorkflowState) :
    WorkflowState × List Effect :=
  match s.selectedRate with
  | none => (s, [])
  | some r =>
    ({ s with isPaymentModalOpen := false, clientSecret := none },
     [.issueLabel userId s.fromAddress s.toAddress r s.pkg])

/-- Two payment-confirmation success callbacks delivered back to back
for the same payment handle: the state after the first callback is fed
to the second, and the emitted effects accumulate. -/
def runTwoSuccessCallbacks (userId : String) (s : WorkflowState) :
    WorkflowState × List Effect :=
  let r1 := handlePaymentSuccess userId s
  let r2 := handlePaymentSuccess userId r1.1
  (r2.1, r1.2 ++ r2.2)

/-- Outcome of `stripe.confirmPayment` as seen by
`CheckoutForm.handleSubmit`: an error object, a payment intent with a
status string, or the 15 s race timeout. -/
inductive ConfirmPaymentOutcome where
  | confirmError (msg : String)
  | intent (status : String)
  | timedOut
deriving DecidableEq, Repr

/-- `CheckoutForm.handleSubmit` invokes `onSuccess()` exactly when the
client SDK returned a payment intent whose status is `'succeeded'`. -/
def clientReportsSuccess : ConfirmPaymentOutcome → Bool
  | .intent status => status = "succeeded"
  | _ => false

/-- The payment-modal flow of `CreateShipment`: the only inputs deciding
label issuance are the component state and the client-side
`confirmPayment` outcome — no server-side payment check is consulted
before `handlePaymentSuccess` purchases the label. -/
def modalPaymentFlow (userId : String) (s : WorkflowState)
    (outcome : ConfirmPaymentOutcome) : WorkflowState × List Effect :=
  if clientReportsSuccess outcome then handlePaymentSuccess userId s else (s, [])

/-! ## Redirect resumption (`App.handleStripeReturn`) -/

/-- The `pending_shipment` draft stored in durable client storage before
a hosted-checkout redirect. -/
structure PendingShipment where
  userId : String
  fromAddress : Address
  toAddress : Address
  selectedRate : Rate
  pkg : PackageDetails
deriving DecidableEq, Repr

/-- `App.handleStripeReturn`: on return with a URL-carried session id,
the session is fetched from `/api/checkout-session/:id` and the label is
purchased only when its `payment_status` is `'paid'` and a stored draft
exists; the draft is removed after consumption. -/
def handleStripeReturn (paymentStatus : String)
    (pending : Option PendingShipment) : List Effect :=
  if paymentStatus = "paid" then
    match pending with
    | some p => [.issueLabel p.userId p.fromAddress p.toAddress p.selectedRate p.pkg]
    | none => []
  else
    []

/-! ## Concrete sample data -/

/-- Sample origin address. -/
def addrA : Address :=
  { name := "J Doe", street1 := "1 Main St", city := "Springfield"
    state := "IL", zip := "62704" }

/-- Sample destination address. -/
def addrB : Address :=
  { name := "A Smith", street1 := "2 Oak Ave", city := "Chicago"
    state := "IL", zip := "60601" }

/-- Sample package: 10 x 8 x 4 in, 2 lb. -/
def pkgSample : PackageDetails :=
  { length := .num 10, width := .num 8, height := .num 4
    weight := .num 2, unit := .inch, weightUnit := .lb }

/-- Cheapest sample offer. -/
def rateCheap : Rate :=
  { id := "101", carrier := "USPS", serviceName := "Ground Advantage"
    totalAmount := mkRat 545 100, currency := "USD", deliveryDays := 5
    estimatedDeliveryDate := "10/17/2026" }

/-- Fastest sample offer. -/
def rateFast : Rate :=
  { id := "102", carrier := "USPS", serviceName := "Priority Mail"
    totalAmount := mkRat 750 100, currency := "USD", deliveryDays := 2
    estimatedDeliveryDate := "10/14/2026" }

/-- Mid-priced sample offer. -/
def rateMid : Rate :=
  { id := "103", carrier := "UPS", serviceName := "Ground"
    totalAmount := 12, currency := "USD", deliveryDays := 4
    estimatedDeliveryDate := "10/16/2026" }

/-- A payment-step state: rate selected, payment intent created, modal
open. -/
def statePay : WorkflowState :=
  { step := 3, fromAddress := addrA, toAddress := addrB, pkg := pkgSample
    rates := [rateCheap, rateFast, rateMid], selectedRate := some rateCheap
    clientSecret := some "pi_123_secret", isPaymentModalOpen := true
    fromErrors := [], toErrors := [] }

/-- A details-step state with fetched rates and a selection. -/
def stateRates : WorkflowState :=
  { statePay with step := 2, clientSecret := none, isPaymentModalOpen := false }

/-- An address-step state. -/
def stateAddr : WorkflowState :=
  { stateRates with step := 1, rates := [], selectedRate := none }

/-- A stored redirect draft matching `statePay`. -/
def pendingSample : PendingShipment :=
  { userId := "usr_1", fromAddress := addrA, toAddress := addrB
    selectedRate := rateCheap, pkg := pkgSample }

/-! ## Claim theorems -/

/-- C1: evaluation of the code at the failing input.  Two
payment-confirmation success callbacks for the same payment handle
(`statePay.clientSecret`) make `handlePaymentSuccess` invoke the
label-purchase call (`createShipment`) twice: the handler is guarded
only by `if (!selectedRate) return` and carries no idempotency key, so
the claimed exactly-once property fails and two Shipments result. -/
theorem two_success_callbacks_issue_two_labels :
    (runTwoSuccessCallbacks "usr_1" statePay).2 =
      [.issueLabel "usr_1" addrA addrB rateCheap pkgSample,
       .issueLabel "usr_1" addrA addrB rateCheap pkgSample] ∧
    ¬ (runTwoSuccessCallbacks "usr_1" statePay).2.length = 1 := by
  decide

/-- C2: evaluation of the code at the failing input.  In the
payment-modal flow of `CreateShipment`, a client-side `confirmPayment`
outcome reporting status `'succeeded'` — the client success flag alone —
triggers the label purchase; no server-side payment verification is
consulted anywhere on this path (`POST /api/shipments` performs none).
Only the separate redirect path (`App.handleStripeReturn`, second
conjunct) withholds issuance until the server-retrieved session reports
`payment_status = 'paid'`. -/
theorem client_flag_alone_triggers_issuance :
    (modalPaymentFlow "usr_1" statePay (.intent "succeeded")).2 =
      [.issueLabel "usr_1" addrA addrB rateCheap pkgSample] ∧
    handleStripeReturn "unpaid" (some pendingSample) = [] := by
  decide

/-- C3, counterexample: in a state with fetched rates and a selected
rate, editing the package length changes the package but leaves both the
fetched Rate list and the selected Rate fully intact — the `setPkg`
handlers clear nothing, so the claim that any package edit clears both
is false. -/
theorem package_edit_keeps_stale_rates :
    stateRates.rates = [rateCheap, rateFast, rateMid] ∧
    (applyPkgEdit stateRates (.setLength (.num 12))).pkg.length = .num 12 ∧
    (applyPkgEdit stateRates (.setLength (.num 12))).rates =
      [rateCheap, rateFast, rateMid] ∧
    (applyPkgEdit stateRates (.setLength (.num 12))).selectedRate =
      some rateCheap := by
  decide

/-- C3, amended: a package edit leaves the fetched Rate list and the
selected Rate unchanged (stale rates persist until the user refetches);
invalidation happens only when a rate fetch runs, and then never mixes
lists — afterwards the displayed list is either the old list unchanged
or exactly the fresh sorted list with the selection cleared. -/
theorem package_edit_preserves_rates_and_selection :
    (∀ (s : WorkflowState) (e : PkgEdit),
      (applyPkgEdit s e).rates = s.rates ∧
      (applyPkgEdit s e).selectedRate = s.selectedRate) ∧
    (∀ (s : WorkflowState) (stdFrom stdTo : Address) (fetched : List Rate),
      (handleFetchRates s stdFrom stdTo fetched).1.rates = s.rates ∨
      ((handleFetchRates s stdFrom stdTo fetched).1.rates = sortRates fetched ∧
        (handleFetchRates s stdFrom stdTo fetched).1.selectedRate = none)) := by
  constructor
  · intro s e
    cases e <;> simp [applyPkgEdit]
  · intro s stdFrom stdTo fetched
    by_cases h : sortRates fetched = [] <;> simp [handleFetchRates, h]

/-- C4, counterexample: a timed-out validation call produces a result
that is not merely "distinguishable from a business rejection with
`isValid:false`" — it *is* an `isValid:false` result, and it coincides,
value for value, with the result of a genuine business rejection whose
error array happens to carry the same text.  The adapter has no
`NetworkOrTimeout` failure kind. -/
theorem timeout_result_equals_rejection :
    validateAddressRun addrA .abortError =
      validateAddressRun addrA
        (.response true
          (some ["Address verification timed out. Please try again."]) none {}) ∧
    (validateAddressRun addrA .abortError).isValid = false := by
  decide

/-- C4, amended: the adapter aborts the call after its bounded 15000 ms
timer and converts the timeout into `isValid:false` with the fixed
message "Address verification timed out. Please try again." — a failure
recognisable only by its message text, not a failure kind distinct from
`isValid:false`. -/
theorem timeout_yields_invalid_with_message (a : Address) :
    requestTimeoutMs = 15000 ∧
    validateAddressRun a .abortError =
      { isValid := false
        messages := ["Address verification timed out. Please try again."]
        correctedAddress := none } :=
  ⟨rfl, rfl⟩

/-- C5: the Address → PackageAndRates gate is all-or-nothing.  From the
address step, `handleValidateAndNext` advances exactly when both
concurrent validation results report `isValid:true`; when exactly one
side fails, the step stays at 1 and error messages are attached only for
the failing address. -/
theorem address_gate_all_or_nothing (s : WorkflowState)
    (fromRes toRes : ValidationResult) (hs : s.step = 1) :
    ((handleValidateAndNext s fromRes toRes).step = 2 ↔
      (fromRes.isValid = true ∧ toRes.isValid = true)) ∧
    (fromRes.isValid = true → toRes.isValid = false →
      (handleValidateAndNext s fromRes toRes).step = 1 ∧
      (handleValidateAndNext s fromRes toRes).fromErrors = [] ∧
      (handleValidateAndNext s fromRes toRes).toErrors = toRes.messages) ∧
    (fromRes.isValid = false → toRes.isValid = true →
      (handleValidateAndNext s fromRes toRes).step = 1 ∧
      (handleValidateAndNext s fromRes toRes).toErrors = [] ∧
      (handleValidateAndNext s fromRes toRes).fromErrors = fromRes.messages) := by
  cases hf : fromRes.isValid <;> cases ht : toRes.isValid <;>
    simp [handleValidateAndNext, hf, ht, hs]

/-- Result of a rejected validation, as produced by the zip `00000`
scenario. -/
def rejectRes : ValidationResult :=
  { isValid := false, messages := ["Invalid ZIP code provided."] }

/-- Result of an accepted validation with no correction. -/
def okRes : ValidationResult := { isValid := true, messages := [] }

/-- Witness for `address_gate_all_or_nothing` at a concrete state where
the destination fails validation: no advance, errors only on the
destination. -/
theorem address_gate_all_or_nothing_witness :
    (handleValidateAndNext stateAddr okRes rejectRes).step = 1 ∧
    (handleValidateAndNext stateAddr okRes rejectRes).fromErrors = [] ∧
    (handleValidateAndNext stateAddr okRes rejectRes).toErrors =
      ["Invalid ZIP code provided."] :=
  (address_gate_all_or_nothing stateAddr okRes rejectRes rfl).2.1 rfl rfl

/-- The comparison the correction diff actually performs: trim, then
case-fold. -/
def canon (s : String) : String := jsToLower (jsTrim s)

/-- The submitted address of the C6 counterexample: identical to `addrA`
except for a trailing space in the zip. -/
def addrZipSpace : Address := { addrA with zip := "62704 " }

/-- C6, counterexample: submitted zip `"62704 "`, corrected zip
`"62704"`.  The two addresses differ only in the zip field under the
claim's case-insensitive comparison (first two conjuncts), the working
address is correctly replaced, but the surfaced diff list is empty — not
the claimed single zip entry — because the code trims before comparing. -/
theorem zip_whitespace_diff_not_surfaced :
    jsToLower (addrZipSpace.fieldVal .zip) ≠ jsToLower (addrA.fieldVal .zip) ∧
    (∀ f ∈ correctionFields, f ≠ AddrField.zip →
      jsToLower (addrZipSpace.fieldVal f) = jsToLower (addrA.fieldVal f)) ∧
    (handleManualValidate addrZipSpace
      { isValid := true, messages := [], correctedAddress := some addrA }).address
      = addrA ∧
    (handleManualValidate addrZipSpace
      { isValid := true, messages := [], correctedAddress := some addrA }).corrections
      = [] := by
  decide

/-- A field whose trimmed, case-folded values agree contributes no diff
entry. -/
theorem correctionEntry_of_canon_eq {orig corr : Address} {f : AddrField}
    (h : canon (orig.fieldVal f) = canon (corr.fieldVal f)) :
    correctionEntry orig corr f = none := by
  have h' : jsToLower (jsTrim (orig.fieldVal f)) = jsToLower (jsTrim (corr.fieldVal f)) := h
  simp [correctionEntry, h']

/-- A zip whose trimmed, case-folded value changed contributes exactly
the zip diff entry. -/
theorem correctionEntry_zip_of_canon_ne {orig corr : Address}
    (h : canon (orig.fieldVal .zip) ≠ canon (corr.fieldVal .zip)) :
    correctionEntry orig corr .zip = some ("ZIP updated to: " ++ corr.zip) := by
  have h' : jsToLower (jsTrim (orig.fieldVal .zip)) ≠ jsToLower (jsTrim (corr.fieldVal .zip)) := h
  have hguard : orig.fieldVal .zip ≠ "" ∨ corr.fieldVal .zip ≠ "" := by
    by_contra hcon
    push_neg at hcon
    exact h (by rw [show canon (orig.fieldVal .zip) = canon "" from by rw [hcon.1],
      show canon (corr.fieldVal .zip) = canon "" from by rw [hcon.2]])
  simp only [correctionEntry]
  rw [if_pos ⟨h', hguard⟩]
  rfl

/-- C6, amended: for a validator response with `isValid:true` and a
corrected address differing from the submitted one only in the zip field
under the comparison the code performs — trimmed, case-insensitive — the
working address afterwards equals `correctedAddress` exactly and the
surfaced diff list contains exactly one entry, for the zip field. -/
theorem zip_only_correction_diff (a c : Address) (res : ValidationResult)
    (h1 : res.isValid = true) (h2 : res.correctedAddress = some c)
    (h3 : ∀ f ∈ correctionFields, f ≠ AddrField.zip →
      canon (a.fieldVal f) = canon (c.fieldVal f))
    (h4 : canon (a.fieldVal .zip) ≠ canon (c.fieldVal .zip)) :
    (handleManualValidate a res).address = c ∧
    (handleManualValidate a res).corrections = ["ZIP updated to: " ++ c.zip] := by
  have e1 := correctionEntry_of_canon_eq (h3 .street1 (by decide) (by decide))
  have e2 := correctionEntry_of_canon_eq (h3 .street2 (by decide) (by decide))
  have e3 := correctionEntry_of_canon_eq (h3 .city (by decide) (by decide))
  have e4 := correctionEntry_of_canon_eq (h3 .state (by decide) (by decide))
  have e6 := correctionEntry_of_canon_eq (h3 .country (by decide) (by decide))
  have ez := correctionEntry_zip_of_canon_ne h4
  constructor
  · simp [handleManualValidate, h1, h2]
  · simp [handleManualValidate, h1, h2, foundCorrections, correctionFields,
      List.filterMap_cons, e1, e2, e3, e4, e6, ez]

/-- The corrected address of the amended-C6 witness: `addrZipSpace` with
the nine-digit zip. -/
def addrZipPlus4 : Address := { addrZipSpace with zip := "62704-1234" }

/-- Witness for `zip_only_correction_diff`: a concrete zip correction
(`"62704 "` → `"62704-1234"`) replaces the working address and surfaces
exactly the zip notice. -/
theorem zip_only_correction_diff_witness :
    (handleManualValidate addrZipSpace
      { isValid := true, messages := [], correctedAddress := some addrZipPlus4 }).address
      = addrZipPlus4 ∧
    (handleManualValidate addrZipSpace
      { isValid := true, messages := [], correctedAddress := some addrZipPlus4 }).corrections
      = ["ZIP updated to: 62704-1234"] :=
  zip_only_correction_diff addrZipSpace addrZipPlus4
    { isValid := true, messages := [], correctedAddress := some addrZipPlus4 }
    rfl rfl (by decide) (by decide)

/-- C7: a successful rate fetch stores exactly the fetched list sorted
ascending by total price, and an empty fetch result is surfaced as a
retryable failure that changes neither the rate list, the selection, nor
the step. -/
theorem rates_sorted_and_empty_is_failure (s : WorkflowState)
    (stdFrom stdTo : Address) (fetched : List Rate) :
    ((handleFetchRates s stdFrom stdTo fetched).2 = none →
      (handleFetchRates s stdFrom stdTo fetched).1.rates = sortRates fetched ∧
      List.Sorted rateLe (handleFetchRates s stdFrom stdTo fetched).1.rates) ∧
    (fetched = [] →
      ((handleFetchRates s stdFrom stdTo fetched).2).isSome = true ∧
      (handleFetchRates s stdFrom stdTo fetched).1.rates = s.rates ∧
      (handleFetchRates s stdFrom stdTo fetched).1.selectedRate = s.selectedRate ∧
      (handleFetchRates s stdFrom stdTo fetched).1.step = s.step) := by
  constructor
  · intro hnone
    by_cases hemp : sortRates fetched = []
    · simp [handleFetchRates, hemp] at hnone
    · constructor
      · simp [handleFetchRates, hemp]
      · have hs : List.Sorted rateLe (sortRates fetched) :=
          List.sorted_insertionSort rateLe fetched
        simpa [handleFetchRates, hemp] using hs
  · intro hfe
    subst hfe
    simp [handleFetchRates, sortRates, List.insertionSort]

/-- Witness for `rates_sorted_and_empty_is_failure`: a two-rate fetch
ends up sorted, and an empty fetch surfaces an error. -/
theorem rates_sorted_and_empty_is_failure_witness :
    (handleFetchRates stateAddr addrA addrB [rateFast, rateCheap]).1.rates =
      sortRates [rateFast, rateCheap] ∧
    ((handleFetchRates stateAddr addrA addrB ([] : List Rate)).2).isSome = true :=
  ⟨((rates_sorted_and_empty_is_failure stateAddr addrA addrB
      [rateFast, rateCheap]).1 (by decide)).1,
   ((rates_sorted_and_empty_is_failure stateAddr addrA addrB []).2 rfl).1⟩

/-- `List.min?` on integers returns the least member. -/
theorem intMin?_eq_some_iff {a : Int} {xs : List Int} :
    xs.min? = some a ↔ a ∈ xs ∧ ∀ b ∈ xs, a ≤ b := by
  haveI : Std.Antisymm (fun x1 x2 : Int => x1 ≤ x2) :=
    ⟨fun {_ _} h1 h2 => le_antisymm h1 h2⟩
  apply List.min?_eq_some_iff (fun a => le_refl a) (fun a b => min_choice a b)
    (fun a b c => le_min_iff)

/-- C8: over the displayed list (the sorted fetch result, rate ids
distinct), the "best value" badge is carried by exactly the first rate —
equivalently, by a rate of minimal total price (second conjunct) — and
the "fastest" badge by exactly the rates whose transit days are minimal,
all ties included. -/
theorem best_value_and_fastest_flags (fetched l : List Rate)
    (hl : l = sortRates fetched) (hne : l ≠ [])
    (hids : (l.map Rate.id).Nodup) :
    (∀ r ∈ l, (isBestValue r l = true ↔ l.head? = some r)) ∧
    (∀ r0, l.head? = some r0 → ∀ r' ∈ l, r0.totalAmount ≤ r'.totalAmount) ∧
    (∀ r ∈ l, (isFastest r l = true ↔
      ∀ r' ∈ l, r.deliveryDays ≤ r'.deliveryDays)) := by
  have hsorted : List.Sorted rateLe l := by
    rw [hl]; exact List.sorted_insertionSort rateLe fetched
  obtain ⟨r0, t, rfl⟩ : ∃ r0 t, l = r0 :: t := by
    cases l with
    | nil => exact absurd rfl hne
    | cons a t => exact ⟨a, t, rfl⟩
  have hhead : ∀ b ∈ t, rateLe r0 b := (List.sorted_cons.mp hsorted).1
  refine ⟨?_, ?_, ?_⟩
  · intro r hr
    constructor
    · intro hb
      have hid : r0.id = r.id := by simpa [isBestValue] using hb
      have : r0 = r :=
        List.inj_on_of_nodup_map hids (List.mem_cons_self r0 t) hr hid
      simp [this]
    · intro hh
      have : r0 = r := Option.some.inj (by simpa using hh)
      simp [isBestValue, this]
  · intro r0' hh r' hr'
    have he : r0 = r0' := Option.some.inj (by simpa using hh)
    subst he
    rcases List.mem_cons.mp hr' with h | h
    · subst h; exact le_refl _
    · exact hhead r' h
  · intro r hr
    obtain ⟨m, hm⟩ : ∃ m, (List.map Rate.deliveryDays (r0 :: t)).min? = some m := by
      cases hmin : (List.map Rate.deliveryDays (r0 :: t)).min? with
      | none =>
        rw [List.min?_eq_none_iff] at hmin
        simp at hmin
      | some m => exact ⟨m, rfl⟩
    obtain ⟨hmem, hle⟩ := intMin?_eq_some_iff.mp hm
    have hminDays : minDays (r0 :: t) = m := by simp only [minDays, hm]
    simp only [isFastest, hminDays, decide_eq_true_eq]
    constructor
    · intro he r' hr'
      rw [he]
      exact hle _ (List.mem_map_of_mem Rate.deliveryDays hr')
    · intro hall
      obtain ⟨rm, hrm, hrme⟩ := List.mem_map.mp hmem
      exact le_antisymm (hrme ▸ hall rm hrm)
        (hle _ (List.mem_map_of_mem Rate.deliveryDays hr))

/-- Fetch result used by the C8 witness (unsorted on arrival). -/
def fetchedSample : List Rate := [rateMid, rateCheap, rateFast]

/-- The corresponding displayed list. -/
def sortedSample : List Rate := sortRates fetchedSample

/-- Witness for `best_value_and_fastest_flags`: on the concrete sorted
list, the cheapest offer is flagged best value and the
minimal-transit-days offer is flagged fastest. -/
theorem best_value_and_fastest_flags_witness :
    isBestValue rateCheap sortedSample = true ∧
    isFastest rateFast sortedSample = true := by
  have h := best_value_and_fastest_flags fetchedSample sortedSample rfl
    (by decide) (by decide)
  exact ⟨(h.1 rateCheap (by decide)).mpr (by decide),
         (h.2.2 rateFast (by decide)).mpr (by decide)⟩

/-- C9: round-trip of the selected rate.  The success callback forwards
exactly the selected Rate to the label purchase (first conjunct), and
whatever Shipment `POST /api/shipments` returns — through either its
DB-stored or its DB-failure response — carries that Rate object
unchanged, field for field, with no recomputation anywhere (second
conjunct; `Rate` equality covers id, carrier, serviceName, totalAmount,
currency, deliveryDays and estimatedDeliveryDate). -/
theorem shipment_carries_selected_rate (s : WorkflowState) (userId : String)
    (r : Rate) (hr : s.selectedRate = some r)
    (eh : EhubShipResult) (db : DbResult) (nowIso : String) (sh : Shipment) :
    (handlePaymentSuccess userId s).2 =
      [.issueLabel userId s.fromAddress s.toAddress r s.pkg] ∧
    (serverCreateShipment
        { userId := userId, fromAddr := s.fromAddress, toAddr := s.toAddress
          rate := r, pkg := s.pkg } eh db nowIso = .ok sh →
      sh.selectedRate = r) := by
  constructor
  · simp [handlePaymentSuccess, hr]
  · intro hok
    unfold serverCreateShipment at hok
    split at hok
    · exact absurd hok (by simp)
    · cases eh with
      | httpError st msg => exact absurd hok (by simp)
      | invalidJson => exact absurd hok (by simp)
      | purchased tn lu cid =>
        cases tn with
        | none => exact absurd hok (by simp)
        | some tracking =>
          cases db with
          | failed msg =>
            rw [← Except.ok.inj hok]
          | stored rid cat =>
            rw [← Except.ok.inj hok]

/-- The Shipment returned for the witness run. -/
def shSample : Shipment :=
  { id := "row_1", createdDate := "2026-10-12", fromAddress := addrA
    toAddress := addrB
    packageDetails := { pkg := pkgSample, carrierId := "ehub_77" }
    selectedRate := rateCheap, trackingNumber := "TRK1"
    labelUrl := "https://labels.example/l.pdf", status := .created }

/-- Witness for `shipment_carries_selected_rate`: a concrete successful
run hands the selected rate through to the stored Shipment untouched. -/
theorem shipment_carries_selected_rate_witness :
    (handlePaymentSuccess "usr_1" statePay).2 =
      [.issueLabel "usr_1" addrA addrB rateCheap pkgSample] ∧
    shSample.selectedRate = rateCheap := by
  have h := shipment_carries_selected_rate statePay "usr_1" rateCheap rfl
    (.purchased (some "TRK1") (some "https://labels.example/l.pdf")
      (some "ehub_77"))
    (.stored "row_1" "2026-10-12") "t0" shSample
  exact ⟨h.1, h.2 rfl⟩

/-- C10: both outgoing parcel payloads (rate fetch and label purchase)
convert the weight as `Math.max(weight * 16, 1)` — an unconditional
pounds-to-ounces conversion performed regardless of the `weightUnit`
field — and replace every non-numeric or zero dimension by 1, while a
non-zero numeric dimension passes through unchanged. -/
theorem parcel_weight_and_dimension_defaults (pkg : PackageDetails)
    (w : Rat) (hw : pkg.weight = .num w) :
    (ratesParcel pkg).weight = .num (max (w * 16) 1) ∧
    shipmentsParcel pkg = ratesParcel pkg ∧
    (∀ u : WeightUnit, ratesParcel { pkg with weightUnit := u } = ratesParcel pkg) ∧
    ((pkg.length = .nan ∨ pkg.length = .num 0) → (ratesParcel pkg).length = 1) ∧
    ((pkg.width = .nan ∨ pkg.width = .num 0) → (ratesParcel pkg).width = 1) ∧
    ((pkg.height = .nan ∨ pkg.height = .num 0) → (ratesParcel pkg).height = 1) ∧
    (∀ q : Rat, q ≠ 0 → pkg.length = .num q → (ratesParcel pkg).length = q) := by
  refine ⟨?_, rfl, fun u => rfl, ?_, ?_, ?_, ?_⟩
  · simp [ratesParcel, hw, JsNum.mulConst, JsNum.jmax]
  · rintro (h | h) <;> simp [ratesParcel, h, JsNum.orDefault]
  · rintro (h | h) <;> simp [ratesParcel, h, JsNum.orDefault]
  · rintro (h | h) <;> simp [ratesParcel, h, JsNum.orDefault]
  · intro q hq hl
    simp [ratesParcel, hl, JsNum.orDefault, hq]

/-- Package of the C10 witness: zero length, 2 lb weight. -/
def pkgZeroLen : PackageDetails := { pkgSample with length := .num 0 }

/-- Witness for `parcel_weight_and_dimension_defaults`: the 2 lb sample
package goes out weighing `max (2 * 16) 1` ounces with its zero length
replaced by 1, identically in both payloads. -/
theorem parcel_weight_and_dimension_defaults_witness :
    (ratesParcel pkgZeroLen).weight = .num (max (2 * 16) 1) ∧
    (ratesParcel pkgZeroLen).length = 1 ∧
    shipmentsParcel pkgZeroLen = ratesParcel pkgZeroLen := by
  have h := parcel_weight_and_dimension_defaults pkgZeroLen 2 rfl
  exact ⟨h.1, h.2.2.2.1 (Or.inr rfl), h.2.1⟩

end ShipApp
